import Mathlib

/-!
Verification of the conecta-saude-backend risk-classification-and-recommendation
pipeline, as a shallow embedding of the Python source:

* `app/models/patient.py`       — data model and input validation
* `app/services/classification_service.py` — rule engine and classification orchestrator
* `app/services/llm_service.py` — recommendation builder and local assembler
* `app/services/patient_service.py` — analysis coordinator

Python `int` fields are embedded as `Int`, the `float` glucose level as `Rat`
(only order comparisons and exact decimal constants occur, so rationals are a
faithful model), dictionaries with possibly-missing keys as structures of
`Option` fields, and raised exceptions as `Except` / explicit outcome types.
Timestamps and id generation (wall clock, uuid) are omitted: no claim depends
on them.
-/

namespace ConectaSaude

/-- Risk levels, `app/models/patient.py` class `RiskLevel`. -/
inductive RiskLevel where
  | LOW
  | MEDIUM
  | HIGH
  | CRITICAL
deriving DecidableEq, Repr

/-- Numeric rank realising the order LOW < MEDIUM < HIGH < CRITICAL used by the spec. -/
def risk_rank : RiskLevel → Nat
  | .LOW => 0
  | .MEDIUM => 1
  | .HIGH => 2
  | .CRITICAL => 3

/-- The validated input DTO, `app/models/patient.py` class `PatientDataInput`:
five required fields. -/
structure PatientDataInput where
  idade : Int
  nivel_glicose : Rat
  pressao_sistolica : Int
  pressao_diastolica : Int
  historico_familiar : Bool
deriving DecidableEq, Repr

/-- The pydantic validation of `PatientDataInput`: field bounds (`ge`/`le`),
the glucose validator (rejects below 0 and above 800) and the model validator
requiring systolic strictly above diastolic. -/
def Valid (p : PatientDataInput) : Prop :=
  0 ≤ p.idade ∧ p.idade ≤ 120 ∧
  0 ≤ p.nivel_glicose ∧ p.nivel_glicose ≤ 1000 ∧ p.nivel_glicose ≤ 800 ∧
  60 ≤ p.pressao_sistolica ∧ p.pressao_sistolica ≤ 300 ∧
  40 ≤ p.pressao_diastolica ∧ p.pressao_diastolica ≤ 200 ∧
  p.pressao_diastolica < p.pressao_sistolica

instance (p : PatientDataInput) : Decidable (Valid p) := by
  unfold Valid; infer_instance

/-- The patient dictionary handed to the services (`patient_data.dict(...)` in
Python). The service layer reads it with `.get(key, default)`, so every field
is optional here; `none` models a missing or `None` entry. -/
structure PatientDict where
  idade : Option Int
  nivel_glicose : Option Rat
  pressao_sistolica : Option Int
  pressao_diastolica : Option Int
  historico_familiar : Option Bool
deriving DecidableEq, Repr

/-- Conversion of a validated DTO to the service-layer dictionary
(`patient_data.dict(exclude=...)`): every field present. -/
def PatientDataInput.toDict (p : PatientDataInput) : PatientDict :=
  { idade := some p.idade
    nivel_glicose := some p.nivel_glicose
    pressao_sistolica := some p.pressao_sistolica
    pressao_diastolica := some p.pressao_diastolica
    historico_familiar := some p.historico_familiar }

/-- `ClassificationStrategy.calculate_risk_level`
(`classification_service.py` lines 17-47). Reads each field with the Python
defaults (`.get("idade", 0)` etc.) and applies the threshold rules top to
bottom, first match wins. -/
def calculate_risk_level (patient_data : PatientDict) : RiskLevel :=
  let idade := patient_data.idade.getD 0
  let glicose := patient_data.nivel_glicose.getD 0
  let sistolica := patient_data.pressao_sistolica.getD 0
  let diastolica := patient_data.pressao_diastolica.getD 0
  let historico := patient_data.historico_familiar.getD false
  if glicose > 300 ∨ sistolica > 180 ∨ diastolica > 110 then
    RiskLevel.CRITICAL
  else
    let critical_conditions :=
      (if glicose > 200 then 1 else 0) +
      (if sistolica > 160 then 1 else 0) +
      (if diastolica > 100 then 1 else 0) +
      (if idade > 70 ∧ glicose > 140 then 1 else 0) +
      (if idade > 80 then 1 else 0)
    if critical_conditions ≥ 2 then
      RiskLevel.HIGH
    else if critical_conditions = 1 ∨ (historico = true ∧ (glicose > 126 ∨ sistolica > 140)) then
      RiskLevel.MEDIUM
    else
      RiskLevel.LOW

/-- `ClassificationStrategy.is_outlier`: true on HIGH and CRITICAL. -/
def is_outlier (risk_level : RiskLevel) : Bool :=
  risk_level == RiskLevel.HIGH || risk_level == RiskLevel.CRITICAL

/-- The base-confidence table of `ClassificationStrategy.calculate_confidence`. -/
def base_confidence : RiskLevel → Rat
  | .CRITICAL => 95/100
  | .HIGH => 85/100
  | .MEDIUM => 75/100
  | .LOW => 70/100

/-- Number of the four required fields present and non-null
(`sum(1 for field in required_fields if patient_data.get(field) is not None)`). -/
def completeness_count (patient_data : PatientDict) : Nat :=
  (if patient_data.idade.isSome then 1 else 0) +
  (if patient_data.nivel_glicose.isSome then 1 else 0) +
  (if patient_data.pressao_sistolica.isSome then 1 else 0) +
  (if patient_data.pressao_diastolica.isSome then 1 else 0)

/-- `ClassificationStrategy.calculate_confidence`
(`classification_service.py` lines 55-70): base value scaled by the
completeness ratio, capped at 0.99. -/
def calculate_confidence (risk_level : RiskLevel) (patient_data : PatientDict) : Rat :=
  let confidence := base_confidence risk_level
  let completeness : Rat := (completeness_count patient_data : Rat) / 4
  min (confidence * completeness) (99/100)

/-- `ClassificationResult` (`app/models/patient.py`), without the timestamp
field (assigned from the wall clock, unused by any claim). `risk_level` is
`Optional` in the pydantic model. -/
structure ClassificationResult where
  is_outlier : Bool
  confidence : Rat
  risk_level : Option RiskLevel
deriving DecidableEq, Repr

/-- `ClassificationService._local_classification`: runs the strategy
(rule engine) and packages the result. -/
def local_classification (patient_data : PatientDict) : ClassificationResult :=
  let risk_level := calculate_risk_level patient_data
  { is_outlier := is_outlier risk_level
    confidence := calculate_confidence risk_level patient_data
    risk_level := some risk_level }

/-- The exception classes the classification path can raise
(`app/core/exceptions.py`), as far as control flow distinguishes them:
`ExternalServiceException` (raised by `_external_classification`),
`ClassificationServiceException` (raised by `classify` on unexpected errors),
and any other exception. -/
inductive ServiceError where
  | externalServiceException
  | classificationServiceException
  | otherException
deriving DecidableEq, Repr

/-- The JSON body a remote classifier may return; every key is optional
(the Python code reads it with `data.get(key, default)`). -/
structure RemotePayload where
  is_outlier : Option Bool
  confidence : Option Rat
  risk_level : Option RiskLevel
deriving DecidableEq, Repr

/-- Outcome of the `httpx` POST inside `_external_classification`:
a response with its HTTP status and parsed body, a timeout
(`httpx.TimeoutException`), a connection error (`httpx.RequestError`), or any
other unexpected failure (e.g. while decoding the body). -/
inductive RemoteOutcome where
  | response (status : Nat) (payload : RemotePayload)
  | timeout
  | connectionError
  | unexpectedFailure
deriving DecidableEq, Repr

/-- Whether `httpx.Response.raise_for_status` passes: exactly the 2xx range. -/
def is2xx (status : Nat) : Prop := 200 ≤ status ∧ status < 300

instance (status : Nat) : Decidable (is2xx status) := by
  unfold is2xx; infer_instance

/-- `ClassificationService._external_classification`
(`classification_service.py` lines 109-142): on a 2xx response, build a
`ClassificationResult` defaulting missing payload fields
(outlier false, confidence 0.5, risk MEDIUM); on timeout, connection error or
non-2xx status raise `ExternalServiceException`; anything else propagates as
an uncaught exception. -/
def external_classification (outcome : RemoteOutcome) :
    Except ServiceError ClassificationResult :=
  match outcome with
  | .response status payload =>
    if is2xx status then
      .ok { is_outlier := payload.is_outlier.getD false
            confidence := payload.confidence.getD (1/2)
            risk_level := some (payload.risk_level.getD RiskLevel.MEDIUM) }
    else
      .error .externalServiceException
  | .timeout => .error .externalServiceException
  | .connectionError => .error .externalServiceException
  | .unexpectedFailure => .error .otherException

/-- `ClassificationService.classify` (`classification_service.py` lines
81-107). `classification_url` is `settings.CLASSIFICATION_SERVICE_URL`
(`none` models a falsy/unset URL). With no URL configured it classifies
locally; otherwise it tries the external service and falls back to local
classification on `ClassificationServiceException` or
`ExternalServiceException`, while any other exception is re-raised as a
`ClassificationServiceException`. -/
def classify (classification_url : Option String) (outcome : RemoteOutcome)
    (patient_data : PatientDict) : Except ServiceError ClassificationResult :=
  match classification_url with
  | none => .ok (local_classification patient_data)
  | some _ =>
    match external_classification outcome with
    | .ok result => .ok result
    | .error .externalServiceException => .ok (local_classification patient_data)
    | .error .classificationServiceException => .ok (local_classification patient_data)
    | .error .otherException => .error .classificationServiceException

/-! ## Recommendation builder (`llm_service.py` class `RecommendationBuilder`) -/

/-- Builder state: the accumulated recommendation lines and the priority tag. -/
structure RecommendationBuilder where
  recommendations : List String
  priority : String
deriving DecidableEq, Repr

/-- A fresh builder (`__init__`): no lines, priority "normal". -/
def RecommendationBuilder.init : RecommendationBuilder :=
  { recommendations := [], priority := "normal" }

/-- `RecommendationBuilder.add_urgent_contact`: appends the contact line with
the given hour window and sets priority to "urgent". -/
def add_urgent_contact (hours : Nat) (b : RecommendationBuilder) : RecommendationBuilder :=
  { recommendations := b.recommendations ++
      ["1. 🚨 URGENTE: Contatar paciente em até " ++ toString hours ++ "h para agendamento prioritário"]
    priority := "urgent" }

/-- `RecommendationBuilder.add_medical_appointment`. -/
def add_medical_appointment (urgency : String) (b : RecommendationBuilder) : RecommendationBuilder :=
  { b with recommendations := b.recommendations ++
      ["2. 📅 Agendar consulta médica de " ++ urgency] }

/-- `RecommendationBuilder.add_glucose_monitoring` (`llm_service.py` lines
34-46): three lines above 300, two lines above 200, nothing otherwise. -/
def add_glucose_monitoring (level : Rat) (b : RecommendationBuilder) : RecommendationBuilder :=
  if level > 300 then
    { b with recommendations := b.recommendations ++
        ["3. 🩸 URGENTE: Glicemia capilar de 2/2h até estabilização",
         "4. 🩸 Solicitar IMEDIATO: Hemoglobina glicada (HbA1c)",
         "5. 👨‍⚕️ Encaminhamento IMEDIATO para endocrinologista"] }
  else if level > 200 then
    { b with recommendations := b.recommendations ++
        ["3. 🩸 Solicitar: Hemoglobina glicada, glicemia de jejum e pós-prandial",
         "4. 👨‍⚕️ Encaminhar para endocrinologista em 7 dias"] }
  else
    b

/-- `RecommendationBuilder.add_pressure_monitoring` (`llm_service.py` lines
48-60). -/
def add_pressure_monitoring (systolic diastolic : Int) (b : RecommendationBuilder) :
    RecommendationBuilder :=
  if systolic > 180 ∨ diastolic > 110 then
    { b with recommendations := b.recommendations ++
        ["3. 📊 Monitoramento pressão arterial de 2/2h",
         "4. 💊 Reavaliação URGENTE da medicação anti-hipertensiva",
         "5. ⚠️ Orientar sobre sinais de crise hipertensiva"] }
  else if systolic > 160 ∨ diastolic > 100 then
    { b with recommendations := b.recommendations ++
        ["3. 📊 Monitoramento diário da pressão arterial",
         "4. 💊 Revisar medicação anti-hipertensiva"] }
  else
    b

/-- `RecommendationBuilder.add_elderly_care`. -/
def add_elderly_care (age : Int) (b : RecommendationBuilder) : RecommendationBuilder :=
  if age > 80 then
    { b with recommendations := b.recommendations ++ ["6. 👴 Acompanhamento geriátrico URGENTE"] }
  else if age > 65 then
    { b with recommendations := b.recommendations ++ ["6. 👴 Acompanhamento geriátrico especializado"] }
  else
    b

/-- `RecommendationBuilder.add_family_guidance`. -/
def add_family_guidance (has_family_history : Bool) (b : RecommendationBuilder) :
    RecommendationBuilder :=
  if has_family_history then
    { b with recommendations := b.recommendations ++
        ["7. 👨‍👩‍👧‍👦 Orientar família sobre fatores de risco hereditários"] }
  else
    b

/-- `RecommendationBuilder.add_lifestyle_guidance`. The Python method receives
`classification.risk_level`, which is `Optional`, and compares it to
`RiskLevel.CRITICAL`. -/
def add_lifestyle_guidance (risk_level : Option RiskLevel) (b : RecommendationBuilder) :
    RecommendationBuilder :=
  if risk_level = some RiskLevel.CRITICAL then
    { b with recommendations := b.recommendations ++ ["8. 🥗 Orientação nutricional URGENTE"] }
  else
    { b with recommendations := b.recommendations ++
        ["8. 🥗 Orientar sobre hábitos alimentares e exercícios"] }

/-- `RecommendationBuilder.add_followup` (`llm_service.py` lines 83-85). -/
def add_followup (days : Nat) (b : RecommendationBuilder) : RecommendationBuilder :=
  { b with recommendations := b.recommendations ++
      ["9. 📞 Retorno obrigatório em " ++ toString days ++ " dias"] }

/-- `RecommendationBuilder.build`: the lines joined with newlines. -/
def RecommendationBuilder.build (b : RecommendationBuilder) : String :=
  String.intercalate "\n" b.recommendations

/-! ## Local recommendation assembly (`llm_service.py` class `LLMService`) -/

/-- The `followup_days` lookup of `LLMService._generate_local_recommendation`
(`llm_service.py` lines 262-268): a dict keyed by the four risk levels, read
with `.get(classification.risk_level, 15)`, so any key outside the table —
in particular an absent (`None`) risk level — yields the default 15. -/
def followup_days (risk_level : Option RiskLevel) : Nat :=
  match risk_level with
  | some .CRITICAL => 3
  | some .HIGH => 7
  | some .MEDIUM => 15
  | some .LOW => 30
  | none => 15

/-- `LLMService._determine_priority` (`llm_service.py` lines 280-288):
a dict lookup with default "normal"; the argument is `Optional`. -/
def determine_priority (risk_level : Option RiskLevel) : String :=
  match risk_level with
  | some .CRITICAL => "critical"
  | some .HIGH => "urgent"
  | some .MEDIUM => "high"
  | some .LOW => "normal"
  | none => "normal"

/-- The builder chain of `LLMService._generate_local_recommendation`
(`llm_service.py` lines 226-270), with the fresh builder threaded explicitly;
the Python method returns `builder.build()`, i.e. these lines joined by
newlines. -/
def generate_local_recommendation_lines (patient_data : PatientDict)
    (classification : ClassificationResult) : List String :=
  let idade := patient_data.idade.getD 0
  let glicose := patient_data.nivel_glicose.getD 0
  let sistolica := patient_data.pressao_sistolica.getD 0
  let diastolica := patient_data.pressao_diastolica.getD 0
  let historico := patient_data.historico_familiar.getD false
  let b := RecommendationBuilder.init
  let b :=
    if classification.risk_level = some RiskLevel.CRITICAL then add_urgent_contact 2 b
    else if classification.risk_level = some RiskLevel.HIGH then add_urgent_contact 12 b
    else add_urgent_contact 24 b
  let b := add_medical_appointment (if classification.is_outlier then "urgência" else "rotina") b
  let b := if glicose > 140 then add_glucose_monitoring glicose b else b
  let b := if sistolica > 140 ∨ diastolica > 90 then add_pressure_monitoring sistolica diastolica b else b
  let b := if idade > 65 then add_elderly_care idade b else b
  let b := add_family_guidance historico b
  let b := add_lifestyle_guidance classification.risk_level b
  let b := add_followup (followup_days classification.risk_level) b
  b.recommendations

/-- `LLMService._generate_local_recommendation`: the assembled text. -/
def generate_local_recommendation (patient_data : PatientDict)
    (classification : ClassificationResult) : String :=
  String.intercalate "\n" (generate_local_recommendation_lines patient_data classification)

/-- `RecommendationData` (`app/models/patient.py`), without the
`generated_at` timestamp. -/
structure RecommendationData where
  content : String
  priority : String
  generated_by : String
deriving DecidableEq, Repr

/-- `LLMService.generate_recommendation` on the source as shipped: the module
hardcodes `GEMINI_AVAILABLE = False`, so `self.model` is `None` and the local
path is always taken; the local assembler is total, so the surrounding
`try` never falls back. -/
def llm_generate_recommendation (patient_data : PatientDict)
    (classification_result : ClassificationResult) : RecommendationData :=
  { content := generate_local_recommendation patient_data classification_result
    priority := determine_priority classification_result.risk_level
    generated_by := "local_rules" }

/-! ## Analysis coordinator (`patient_service.py` class `PatientService`) -/

/-- Outcome of the coordinator's call into the recommendation generator:
either it returns a value or it raises some exception (the defensive case
the coordinator guards against). -/
inductive StepOutcome (α : Type) where
  | ok (value : α)
  | raised
deriving DecidableEq, Repr

/-- The hardcoded recommendation `PatientService._generate_recommendation`
builds in its `except` branch (`patient_service.py` lines 205-209). -/
def basic_fallback_recommendation : RecommendationData :=
  { content := "Agendar consulta médica para avaliação detalhada"
    priority := "normal"
    generated_by := "fallback" }

/-- `PatientService._generate_recommendation` (`patient_service.py` lines
155-209): returns `none` (no recommendation) when the classification is not
an outlier; otherwise calls the LLM service and, if any exception escapes
that call, swallows it and returns the hardcoded basic recommendation. -/
def generate_recommendation_step (classification_result : ClassificationResult)
    (llm_call : StepOutcome RecommendationData) : Option RecommendationData :=
  if classification_result.is_outlier = false then
    none
  else
    match llm_call with
    | .ok recommendation_data => some recommendation_data
    | .raised => some basic_fallback_recommendation

/-- `PatientAnalysisResponse` (`app/models/patient.py`), restricted to the
fields the claims are about: the classification and the optional
recommendation. -/
structure PatientAnalysisResponse where
  classification : ClassificationResult
  recommendation : Option RecommendationData
deriving DecidableEq, Repr

/-- `PatientService.analyze_patient` (`patient_service.py` lines 61-131):
classification first (the only step allowed to fail the analysis), then the
best-effort recommendation step, then response assembly. -/
def analyze_patient (patient_data : PatientDict) (classification_url : Option String)
    (outcome : RemoteOutcome) (llm_call : StepOutcome RecommendationData) :
    Except ServiceError PatientAnalysisResponse :=
  match classify classification_url outcome patient_data with
  | .error e => .error e
  | .ok classification_result =>
    .ok { classification := classification_result
          recommendation := generate_recommendation_step classification_result llm_call }

/-! ## Abbreviations for the conditions appearing in `calculate_risk_level` -/

/-- The critical-tier condition of `calculate_risk_level`, on the raw
dictionary (with the code's `.get` defaults). -/
def crit_cond (pd : PatientDict) : Prop :=
  pd.nivel_glicose.getD 0 > 300 ∨ pd.pressao_sistolica.getD 0 > 180 ∨
    pd.pressao_diastolica.getD 0 > 110

/-- The `critical_conditions` sum of `calculate_risk_level`, on the raw
dictionary. -/
def sev_count (pd : PatientDict) : Nat :=
  (if pd.nivel_glicose.getD 0 > 200 then 1 else 0) +
  (if pd.pressao_sistolica.getD 0 > 160 then 1 else 0) +
  (if pd.pressao_diastolica.getD 0 > 100 then 1 else 0) +
  (if pd.idade.getD 0 > 70 ∧ pd.nivel_glicose.getD 0 > 140 then 1 else 0) +
  (if pd.idade.getD 0 > 80 then 1 else 0)

/-- The family-history condition of the MEDIUM rule, on the raw dictionary. -/
def fam_cond (pd : PatientDict) : Prop :=
  pd.historico_familiar.getD false = true ∧
    (pd.nivel_glicose.getD 0 > 126 ∨ pd.pressao_sistolica.getD 0 > 140)

/-- The severity count as the spec words it, on a validated snapshot: number
of true conditions among glucose > 200, systolic > 160, diastolic > 100,
(age > 70 and glucose > 140), age > 80. -/
def severity_count (p : PatientDataInput) : Nat :=
  (if p.nivel_glicose > 200 then 1 else 0) +
  (if p.pressao_sistolica > 160 then 1 else 0) +
  (if p.pressao_diastolica > 100 then 1 else 0) +
  (if p.idade > 70 ∧ p.nivel_glicose > 140 then 1 else 0) +
  (if p.idade > 80 then 1 else 0)

/-! ## Concrete snapshots used by the spec's examples -/

/-- The snapshot age 65, glucose 280, systolic 160, diastolic 95,
family history true. -/
def snapshot_65_280_160_95 : PatientDataInput := ⟨65, 280, 160, 95, true⟩

/-- The snapshot age 30, glucose 90, systolic 110, diastolic 70,
family history false. -/
def snapshot_30_90_110_70 : PatientDataInput := ⟨30, 90, 110, 70, false⟩

/-- A snapshot triggering both the glucose (> 200) and the pressure (> 160)
monitoring blocks: age 50, glucose 250, systolic 165, diastolic 95. -/
def snapshot_50_250_165_95 : PatientDataInput := ⟨50, 250, 165, 95, false⟩

/-! ## Characterisation of the rule engine -/

set_option maxHeartbeats 1000000 in
theorem risk_eq_CRITICAL_iff (pd : PatientDict) :
    calculate_risk_level pd = RiskLevel.CRITICAL ↔ crit_cond pd := by
  simp only [calculate_risk_level, crit_cond, sev_count, fam_cond]
  split_ifs <;> simp_all

set_option maxHeartbeats 1000000 in
theorem risk_eq_HIGH_iff (pd : PatientDict) :
    calculate_risk_level pd = RiskLevel.HIGH ↔ ¬crit_cond pd ∧ 2 ≤ sev_count pd := by
  simp only [calculate_risk_level, crit_cond, sev_count, fam_cond]
  split_ifs <;> simp_all

set_option maxHeartbeats 1000000 in
theorem risk_eq_MEDIUM_iff (pd : PatientDict) :
    calculate_risk_level pd = RiskLevel.MEDIUM ↔
      ¬crit_cond pd ∧ ¬(2 ≤ sev_count pd) ∧ (sev_count pd = 1 ∨ fam_cond pd) := by
  simp only [calculate_risk_level, crit_cond, sev_count, fam_cond]
  split_ifs <;> simp_all

set_option maxHeartbeats 1000000 in
theorem risk_eq_LOW_iff (pd : PatientDict) :
    calculate_risk_level pd = RiskLevel.LOW ↔
      ¬crit_cond pd ∧ ¬(2 ≤ sev_count pd) ∧ ¬(sev_count pd = 1 ∨ fam_cond pd) := by
  simp only [calculate_risk_level, crit_cond, sev_count, fam_cond]
  split_ifs <;> simp_all

theorem toDict_crit (p : PatientDataInput) :
    crit_cond p.toDict ↔
      (p.nivel_glicose > 300 ∨ p.pressao_sistolica > 180 ∨ p.pressao_diastolica > 110) := by
  simp [crit_cond, PatientDataInput.toDict]

theorem toDict_sev (p : PatientDataInput) : sev_count p.toDict = severity_count p := by
  simp [sev_count, severity_count, PatientDataInput.toDict]

theorem toDict_fam (p : PatientDataInput) :
    fam_cond p.toDict ↔
      (p.historico_familiar = true ∧ (p.nivel_glicose > 126 ∨ p.pressao_sistolica > 140)) := by
  simp [fam_cond, PatientDataInput.toDict]

/-- C1: for every validated vitals snapshot, `calculate_risk_level` returns
CRITICAL iff glucose > 300 or systolic > 180 or diastolic > 110; otherwise,
with the severity count of the five conditions, it returns HIGH iff
count ≥ 2, MEDIUM iff count = 1 or (family history and (glucose > 126 or
systolic > 140)), and LOW otherwise — rules evaluated top to bottom, first
match wins. -/
theorem risk_rule_engine_first_match (p : PatientDataInput) (hv : Valid p) :
    (calculate_risk_level p.toDict = RiskLevel.CRITICAL ↔
      (p.nivel_glicose > 300 ∨ p.pressao_sistolica > 180 ∨ p.pressao_diastolica > 110)) ∧
    (calculate_risk_level p.toDict = RiskLevel.HIGH ↔
      (¬(p.nivel_glicose > 300 ∨ p.pressao_sistolica > 180 ∨ p.pressao_diastolica > 110) ∧
        2 ≤ severity_count p)) ∧
    (calculate_risk_level p.toDict = RiskLevel.MEDIUM ↔
      (¬(p.nivel_glicose > 300 ∨ p.pressao_sistolica > 180 ∨ p.pressao_diastolica > 110) ∧
        ¬(2 ≤ severity_count p) ∧
        (severity_count p = 1 ∨
          (p.historico_familiar = true ∧ (p.nivel_glicose > 126 ∨ p.pressao_sistolica > 140))))) ∧
    (calculate_risk_level p.toDict = RiskLevel.LOW ↔
      (¬(p.nivel_glicose > 300 ∨ p.pressao_sistolica > 180 ∨ p.pressao_diastolica > 110) ∧
        ¬(2 ≤ severity_count p) ∧
        ¬(severity_count p = 1 ∨
          (p.historico_familiar = true ∧ (p.nivel_glicose > 126 ∨ p.pressao_sistolica > 140))))) := by
  refine ⟨?_, ?_, ?_, ?_⟩
  · rw [risk_eq_CRITICAL_iff, toDict_crit]
  · rw [risk_eq_HIGH_iff, toDict_crit, toDict_sev]
  · rw [risk_eq_MEDIUM_iff, toDict_crit, toDict_sev, toDict_fam]
  · rw [risk_eq_LOW_iff, toDict_crit, toDict_sev, toDict_fam]

/-- Witness for C1 at the concrete validated snapshot
(65, 280, 160, 95, true): the characterisation holds there. -/
theorem risk_rule_engine_first_match_witness :
    calculate_risk_level snapshot_65_280_160_95.toDict = RiskLevel.MEDIUM ↔
      (¬(snapshot_65_280_160_95.nivel_glicose > 300 ∨
          snapshot_65_280_160_95.pressao_sistolica > 180 ∨
          snapshot_65_280_160_95.pressao_diastolica > 110) ∧
        ¬(2 ≤ severity_count snapshot_65_280_160_95) ∧
        (severity_count snapshot_65_280_160_95 = 1 ∨
          (snapshot_65_280_160_95.historico_familiar = true ∧
            (snapshot_65_280_160_95.nivel_glicose > 126 ∨
              snapshot_65_280_160_95.pressao_sistolica > 140)))) :=
  (risk_rule_engine_first_match snapshot_65_280_160_95 (by decide)).2.2.1

/-- C2 counterexample: at the snapshot (age 65, glucose 280, systolic 160,
diastolic 95, family history true) the code does NOT return HIGH with
outlier true, confidence 0.85 and priority "urgent" — systolic 160 fails the
strict `> 160` check, so only one severity condition holds. -/
theorem snapshot65_claim_false :
    ¬(calculate_risk_level snapshot_65_280_160_95.toDict = RiskLevel.HIGH ∧
      is_outlier (calculate_risk_level snapshot_65_280_160_95.toDict) = true ∧
      calculate_confidence (calculate_risk_level snapshot_65_280_160_95.toDict)
        snapshot_65_280_160_95.toDict = 85/100 ∧
      determine_priority (some (calculate_risk_level snapshot_65_280_160_95.toDict)) =
        "urgent") := by
  decide

/-- C2 amended: for the snapshot (65, 280, 160, 95, true) the local engine
returns MEDIUM (severity count 1: only glucose > 200 holds, since
systolic 160 is not > 160), is_outlier false, confidence 0.75 (full
completeness), and the recommendation priority is "high". -/
theorem snapshot65_actual_results :
    local_classification snapshot_65_280_160_95.toDict =
      { is_outlier := false, confidence := 75/100, risk_level := some RiskLevel.MEDIUM } ∧
    severity_count snapshot_65_280_160_95 = 1 ∧
    determine_priority (local_classification snapshot_65_280_160_95.toDict).risk_level =
      "high" := by
  have h1 : calculate_risk_level snapshot_65_280_160_95.toDict = RiskLevel.MEDIUM := by decide
  refine ⟨?_, by decide, ?_⟩
  · simp only [local_classification, h1]
    norm_num [is_outlier, calculate_confidence, base_confidence, completeness_count, min_def,
      snapshot_65_280_160_95, PatientDataInput.toDict]
    decide
  · simp [local_classification, h1, determine_priority]

/-- C3: when the configured remote classifier fails with a timeout, a
connection error or a non-2xx HTTP status, `classify` does not raise: it
returns the `ClassificationResult` produced by the local rule engine
(`calculate_risk_level`, `is_outlier`, `calculate_confidence`). -/
theorem classify_remote_failure_falls_back (url : String) (outcome : RemoteOutcome)
    (pd : PatientDict)
    (hfail : outcome = RemoteOutcome.timeout ∨ outcome = RemoteOutcome.connectionError ∨
      (∃ status payload, outcome = RemoteOutcome.response status payload ∧ ¬is2xx status)) :
    classify (some url) outcome pd =
      Except.ok { is_outlier := is_outlier (calculate_risk_level pd)
                  confidence := calculate_confidence (calculate_risk_level pd) pd
                  risk_level := some (calculate_risk_level pd) } := by
  rcases hfail with h | h | ⟨status, payload, h, hs⟩
  · subst h; rfl
  · subst h; rfl
  · subst h
    simp [classify, external_classification, hs, local_classification]

/-- Witness for C3: with a remote URL configured and a timeout outcome,
`classify` returns the local result for the snapshot (65, 280, 160, 95, true). -/
theorem classify_remote_failure_falls_back_witness :
    classify (some "http://classifier") RemoteOutcome.timeout snapshot_65_280_160_95.toDict =
      Except.ok
        { is_outlier := is_outlier (calculate_risk_level snapshot_65_280_160_95.toDict)
          confidence := calculate_confidence (calculate_risk_level snapshot_65_280_160_95.toDict)
            snapshot_65_280_160_95.toDict
          risk_level := some (calculate_risk_level snapshot_65_280_160_95.toDict) } :=
  classify_remote_failure_falls_back "http://classifier" RemoteOutcome.timeout
    snapshot_65_280_160_95.toDict (Or.inl rfl)

/-- C4: for every analysis whose classification result has `is_outlier`
false, the response's recommendation field is absent (`none`). -/
theorem analysis_without_outlier_has_no_recommendation
    (pd : PatientDict) (url : Option String) (outcome : RemoteOutcome)
    (llm_call : StepOutcome RecommendationData) (resp : PatientAnalysisResponse)
    (h : analyze_patient pd url outcome llm_call = Except.ok resp)
    (hout : resp.classification.is_outlier = false) :
    resp.recommendation = none := by
  unfold analyze_patient at h
  cases hc : classify url outcome pd with
  | error e => rw [hc] at h; exact absurd h (by simp)
  | ok cr =>
    rw [hc] at h
    simp only [Except.ok.injEq] at h
    subst h
    simp only at hout
    simp [generate_recommendation_step, hout]

/-- Witness for C4: the low-risk snapshot (30, 90, 110, 70, false) analysed
locally yields is_outlier false and an absent recommendation. -/
theorem analysis_without_outlier_witness :
    (PatientAnalysisResponse.mk (local_classification snapshot_30_90_110_70.toDict)
      (generate_recommendation_step (local_classification snapshot_30_90_110_70.toDict)
        (StepOutcome.ok basic_fallback_recommendation))).recommendation = none :=
  analysis_without_outlier_has_no_recommendation snapshot_30_90_110_70.toDict none
    RemoteOutcome.timeout (StepOutcome.ok basic_fallback_recommendation) _ rfl (by decide)

/-- C5 counterexample: for the outlier snapshot (50, 250, 165, 95, false),
when the recommendation-generation call raises, the coordinator's
recommendation is NOT absent — it is the hardcoded basic fallback, so the
claim that the analysis carries an absent (`None`) recommendation fails. -/
theorem recommendation_error_not_absent :
    (local_classification snapshot_50_250_165_95.toDict).is_outlier = true ∧
    generate_recommendation_step (local_classification snapshot_50_250_165_95.toDict)
      StepOutcome.raised ≠ none := by
  have h : (local_classification snapshot_50_250_165_95.toDict).is_outlier = true := by decide
  exact ⟨h, by simp [generate_recommendation_step, h]⟩

/-- C5 amended: if any exception escapes the recommendation-generation step
for an outlier classification, the coordinator catches it and produces a
response carrying the hardcoded basic fallback recommendation (content
"Agendar consulta médica para avaliação detalhada", priority "normal",
producer "fallback"), and the analysis as a whole does not fail. -/
theorem recommendation_error_basic_fallback (pd : PatientDict) (url : Option String)
    (outcome : RemoteOutcome) (cr : ClassificationResult)
    (h : classify url outcome pd = Except.ok cr) (hout : cr.is_outlier = true) :
    analyze_patient pd url outcome StepOutcome.raised =
      Except.ok { classification := cr
                  recommendation := some basic_fallback_recommendation } := by
  unfold analyze_patient
  rw [h]
  simp [generate_recommendation_step, hout]

/-- Witness for C5 at the outlier snapshot (50, 250, 165, 95, false). -/
theorem recommendation_error_basic_fallback_witness :
    analyze_patient snapshot_50_250_165_95.toDict none RemoteOutcome.timeout
        StepOutcome.raised =
      Except.ok { classification := local_classification snapshot_50_250_165_95.toDict
                  recommendation := some basic_fallback_recommendation } :=
  recommendation_error_basic_fallback snapshot_50_250_165_95.toDict none
    RemoteOutcome.timeout _ rfl (by decide)

/-- C6: confidence is the base-table value (CRITICAL 0.95, HIGH 0.85,
MEDIUM 0.75, LOW 0.70) times (present required fields)/4, capped at 0.99;
with all four fields present it equals the base value, and it always lies in
[0, 0.99]. -/
theorem confidence_base_times_completeness (risk_level : RiskLevel) (pd : PatientDict) :
    base_confidence RiskLevel.CRITICAL = 95/100 ∧ base_confidence RiskLevel.HIGH = 85/100 ∧
    base_confidence RiskLevel.MEDIUM = 75/100 ∧ base_confidence RiskLevel.LOW = 70/100 ∧
    calculate_confidence risk_level pd =
      min (base_confidence risk_level * (completeness_count pd : Rat) / 4) (99/100) ∧
    (completeness_count pd = 4 →
      calculate_confidence risk_level pd = base_confidence risk_level) ∧
    0 ≤ calculate_confidence risk_level pd ∧
    calculate_confidence risk_level pd ≤ 99/100 := by
  have hb0 : (0:Rat) ≤ base_confidence risk_level := by
    cases risk_level <;> norm_num [base_confidence]
  have hb99 : base_confidence risk_level ≤ 99/100 := by
    cases risk_level <;> norm_num [base_confidence]
  refine ⟨rfl, rfl, rfl, rfl, ?_, ?_, ?_, ?_⟩
  · simp [calculate_confidence, mul_div_assoc]
  · intro h4
    have hc : ((completeness_count pd : Rat) / 4) = 1 := by rw [h4]; norm_num
    simp [calculate_confidence, hc, min_eq_left hb99]
  · refine le_min (mul_nonneg hb0 ?_) (by norm_num)
    positivity
  · exact min_le_right _ _

/-- Witness for C6: for the fully populated snapshot (65, 280, 160, 95,
true) and risk HIGH, the completeness count is 4 and confidence equals the
base value. -/
theorem confidence_base_times_completeness_witness :
    completeness_count snapshot_65_280_160_95.toDict = 4 ∧
    calculate_confidence RiskLevel.HIGH snapshot_65_280_160_95.toDict =
      base_confidence RiskLevel.HIGH :=
  ⟨by decide,
    (confidence_base_times_completeness RiskLevel.HIGH
      snapshot_65_280_160_95.toDict).2.2.2.2.2.1 (by decide)⟩

/-- C7 counterexample: the fallback default of the follow-up interval is 15
days, not 30 — an absent risk level produces the line "9. 📞 Retorno
obrigatório em 15 dias". -/
theorem followup_default_is_15_not_30 :
    followup_days none = 15 ∧ followup_days none ≠ 30 ∧
    (add_followup (followup_days none) RecommendationBuilder.init).recommendations =
      ["9. 📞 Retorno obrigatório em 15 dias"] := by
  refine ⟨rfl, by decide, by decide⟩

/-- C7 amended: the follow-up line of the locally assembled recommendation
states 3 days for CRITICAL, 7 for HIGH, 15 for MEDIUM and 30 for LOW, with
15 days as the fallback default for any other (including absent) risk-level
value; the line is always the last line of the assembled text. -/
theorem followup_intervals (b : RecommendationBuilder) (r : Option RiskLevel)
    (pd : PatientDict) (cl : ClassificationResult) :
    followup_days (some RiskLevel.CRITICAL) = 3 ∧ followup_days (some RiskLevel.HIGH) = 7 ∧
    followup_days (some RiskLevel.MEDIUM) = 15 ∧ followup_days (some RiskLevel.LOW) = 30 ∧
    followup_days none = 15 ∧
    (add_followup (followup_days r) b).recommendations =
      b.recommendations ++
        ["9. 📞 Retorno obrigatório em " ++ toString (followup_days r) ++ " dias"] ∧
    (generate_local_recommendation_lines pd cl).getLast? =
      some ("9. 📞 Retorno obrigatório em " ++ toString (followup_days cl.risk_level) ++
        " dias") := by
  refine ⟨rfl, rfl, rfl, rfl, rfl, rfl, ?_⟩
  simp only [generate_local_recommendation_lines, add_followup]
  exact List.getLast?_concat _

/-- C8: for a snapshot with 140 < glucose ≤ 200, the glucose-monitoring
block is triggered (the gate `glucose > 140` fires) but contributes no lines:
the assembled text equals the one for an otherwise-equal snapshot with
glucose ≤ 140 (risk level held fixed); glucose lines appear only above 200
(2 lines) or above 300 (3 lines). -/
theorem glucose_gap_contributes_nothing (pd : PatientDict) (cl : ClassificationResult)
    (g g' : Rat) (h1 : 140 < g) (h2 : g ≤ 200) (h3 : g' ≤ 140) :
    generate_local_recommendation { pd with nivel_glicose := some g } cl =
      generate_local_recommendation { pd with nivel_glicose := some g' } cl ∧
    (∀ b : RecommendationBuilder, add_glucose_monitoring g b = b) ∧
    (∀ (x : Rat) (b : RecommendationBuilder), 200 < x → x ≤ 300 →
      (add_glucose_monitoring x b).recommendations = b.recommendations ++
        ["3. 🩸 Solicitar: Hemoglobina glicada, glicemia de jejum e pós-prandial",
         "4. 👨‍⚕️ Encaminhar para endocrinologista em 7 dias"]) ∧
    (∀ (x : Rat) (b : RecommendationBuilder), 300 < x →
      (add_glucose_monitoring x b).recommendations = b.recommendations ++
        ["3. 🩸 URGENTE: Glicemia capilar de 2/2h até estabilização",
         "4. 🩸 Solicitar IMEDIATO: Hemoglobina glicada (HbA1c)",
         "5. 👨‍⚕️ Encaminhamento IMEDIATO para endocrinologista"]) := by
  have hg200 : ¬(g > 200) := not_lt.mpr h2
  have hg300 : ¬(g > 300) := by push_neg; linarith
  have h140 : ¬(g' > 140) := not_lt.mpr h3
  have hskip : ∀ b, add_glucose_monitoring g b = b := by
    intro b; simp [add_glucose_monitoring, hg200, hg300]
  refine ⟨?_, hskip, ?_, ?_⟩
  · simp [generate_local_recommendation, generate_local_recommendation_lines, h1, h140, hskip]
  · intro x b hx1 hx2
    have hx300 : ¬(x > 300) := by push_neg; linarith
    simp [add_glucose_monitoring, hx300, hx1]
  · intro x b hx
    simp [add_glucose_monitoring, hx]

/-- Witness for C8: with glucose 150 (gap range) versus glucose 100 on the
otherwise-equal low snapshot, the assembled texts coincide. -/
theorem glucose_gap_contributes_nothing_witness :
    generate_local_recommendation
        { snapshot_30_90_110_70.toDict with nivel_glicose := some 150 }
        (local_classification snapshot_30_90_110_70.toDict) =
      generate_local_recommendation
        { snapshot_30_90_110_70.toDict with nivel_glicose := some 100 }
        (local_classification snapshot_30_90_110_70.toDict) :=
  (glucose_gap_contributes_nothing snapshot_30_90_110_70.toDict
    (local_classification snapshot_30_90_110_70.toDict) 150 100
    (by norm_num) (by norm_num) (by norm_num)).1

/-! ## Monotonicity of the rule engine (C9) -/

theorem indicator_le {P Q : Prop} [Decidable P] [Decidable Q] (h : P → Q) :
    (if P then 1 else 0) ≤ (if Q then 1 else 0 : Nat) := by
  by_cases hp : P <;> by_cases hq : Q <;> simp_all

theorem crit_cond_mono (pd qd : PatientDict)
    (hg : pd.nivel_glicose.getD 0 ≤ qd.nivel_glicose.getD 0)
    (hs : pd.pressao_sistolica.getD 0 ≤ qd.pressao_sistolica.getD 0)
    (hd : pd.pressao_diastolica.getD 0 ≤ qd.pressao_diastolica.getD 0) :
    crit_cond pd → crit_cond qd := by
  rintro (h | h | h)
  · exact Or.inl (lt_of_lt_of_le h hg)
  · exact Or.inr (Or.inl (lt_of_lt_of_le h hs))
  · exact Or.inr (Or.inr (lt_of_lt_of_le h hd))

theorem sev_count_mono (pd qd : PatientDict)
    (hg : pd.nivel_glicose.getD 0 ≤ qd.nivel_glicose.getD 0)
    (hs : pd.pressao_sistolica.getD 0 ≤ qd.pressao_sistolica.getD 0)
    (hd : pd.pressao_diastolica.getD 0 ≤ qd.pressao_diastolica.getD 0)
    (ha : pd.idade.getD 0 ≤ qd.idade.getD 0) :
    sev_count pd ≤ sev_count qd := by
  unfold sev_count
  refine Nat.add_le_add (Nat.add_le_add (Nat.add_le_add (Nat.add_le_add ?_ ?_) ?_) ?_) ?_
  · exact indicator_le fun h => lt_of_lt_of_le h hg
  · exact indicator_le fun h => lt_of_lt_of_le h hs
  · exact indicator_le fun h => lt_of_lt_of_le h hd
  · exact indicator_le fun h => ⟨lt_of_lt_of_le h.1 ha, lt_of_lt_of_le h.2 hg⟩
  · exact indicator_le fun h => lt_of_lt_of_le h ha

theorem fam_cond_mono (pd qd : PatientDict)
    (hg : pd.nivel_glicose.getD 0 ≤ qd.nivel_glicose.getD 0)
    (hs : pd.pressao_sistolica.getD 0 ≤ qd.pressao_sistolica.getD 0)
    (hh : pd.historico_familiar.getD false = qd.historico_familiar.getD false) :
    fam_cond pd → fam_cond qd := by
  rintro ⟨h1, h2 | h2⟩
  · exact ⟨hh ▸ h1, Or.inl (lt_of_lt_of_le h2 hg)⟩
  · exact ⟨hh ▸ h1, Or.inr (lt_of_lt_of_le h2 hs)⟩

theorem rank_ge_one_iff (pd : PatientDict) :
    1 ≤ risk_rank (calculate_risk_level pd) ↔
      crit_cond pd ∨ 1 ≤ sev_count pd ∨ fam_cond pd := by
  cases h : calculate_risk_level pd with
  | LOW =>
    rw [risk_eq_LOW_iff] at h
    obtain ⟨hnc, hn2, hn1⟩ := h
    push_neg at hn1
    simp only [risk_rank]
    refine iff_of_false (by omega) ?_
    rintro (hc | hcount | hf)
    · exact hnc hc
    · omega
    · exact hn1.2 hf
  | MEDIUM =>
    rw [risk_eq_MEDIUM_iff] at h
    obtain ⟨hnc, hn2, h1f⟩ := h
    refine iff_of_true (by norm_num [risk_rank]) ?_
    rcases h1f with h1 | hf
    · exact Or.inr (Or.inl (by omega))
    · exact Or.inr (Or.inr hf)
  | HIGH =>
    rw [risk_eq_HIGH_iff] at h
    exact iff_of_true (by norm_num [risk_rank]) (Or.inr (Or.inl (by omega)))
  | CRITICAL =>
    rw [risk_eq_CRITICAL_iff] at h
    exact iff_of_true (by norm_num [risk_rank]) (Or.inl h)

theorem rank_ge_two_iff (pd : PatientDict) :
    2 ≤ risk_rank (calculate_risk_level pd) ↔ crit_cond pd ∨ 2 ≤ sev_count pd := by
  cases h : calculate_risk_level pd with
  | LOW =>
    rw [risk_eq_LOW_iff] at h
    obtain ⟨hnc, hn2, _⟩ := h
    simp only [risk_rank]
    refine iff_of_false (by omega) ?_
    rintro (hc | hcount)
    · exact hnc hc
    · exact hn2 hcount
  | MEDIUM =>
    rw [risk_eq_MEDIUM_iff] at h
    obtain ⟨hnc, hn2, _⟩ := h
    simp only [risk_rank]
    refine iff_of_false (by omega) ?_
    rintro (hc | hcount)
    · exact hnc hc
    · exact hn2 hcount
  | HIGH =>
    rw [risk_eq_HIGH_iff] at h
    exact iff_of_true (by norm_num [risk_rank]) (Or.inr h.2)
  | CRITICAL =>
    rw [risk_eq_CRITICAL_iff] at h
    exact iff_of_true (by norm_num [risk_rank]) (Or.inl h)

theorem rank_ge_three_iff (pd : PatientDict) :
    3 ≤ risk_rank (calculate_risk_level pd) ↔ crit_cond pd := by
  cases h : calculate_risk_level pd with
  | LOW =>
    rw [risk_eq_LOW_iff] at h
    exact iff_of_false (by norm_num [risk_rank]) h.1
  | MEDIUM =>
    rw [risk_eq_MEDIUM_iff] at h
    exact iff_of_false (by norm_num [risk_rank]) h.1
  | HIGH =>
    rw [risk_eq_HIGH_iff] at h
    exact iff_of_false (by norm_num [risk_rank]) h.1
  | CRITICAL =>
    rw [risk_eq_CRITICAL_iff] at h
    exact iff_of_true (by norm_num [risk_rank]) h

theorem risk_rank_mono (pd qd : PatientDict)
    (hg : pd.nivel_glicose.getD 0 ≤ qd.nivel_glicose.getD 0)
    (hs : pd.pressao_sistolica.getD 0 ≤ qd.pressao_sistolica.getD 0)
    (hd : pd.pressao_diastolica.getD 0 ≤ qd.pressao_diastolica.getD 0)
    (ha : pd.idade.getD 0 ≤ qd.idade.getD 0)
    (hh : pd.historico_familiar.getD false = qd.historico_familiar.getD false) :
    risk_rank (calculate_risk_level pd) ≤ risk_rank (calculate_risk_level qd) := by
  have t1 : 1 ≤ risk_rank (calculate_risk_level pd) →
      1 ≤ risk_rank (calculate_risk_level qd) := by
    rw [rank_ge_one_iff, rank_ge_one_iff]
    rintro (hc | hcount | hf)
    · exact Or.inl (crit_cond_mono pd qd hg hs hd hc)
    · exact Or.inr (Or.inl (le_trans hcount (sev_count_mono pd qd hg hs hd ha)))
    · exact Or.inr (Or.inr (fam_cond_mono pd qd hg hs hh hf))
  have t2 : 2 ≤ risk_rank (calculate_risk_level pd) →
      2 ≤ risk_rank (calculate_risk_level qd) := by
    rw [rank_ge_two_iff, rank_ge_two_iff]
    rintro (hc | hcount)
    · exact Or.inl (crit_cond_mono pd qd hg hs hd hc)
    · exact Or.inr (le_trans hcount (sev_count_mono pd qd hg hs hd ha))
  have t3 : 3 ≤ risk_rank (calculate_risk_level pd) →
      3 ≤ risk_rank (calculate_risk_level qd) := by
    rw [rank_ge_three_iff, rank_ge_three_iff]
    exact crit_cond_mono pd qd hg hs hd
  cases hp : calculate_risk_level pd
  case LOW => simp [risk_rank]
  case MEDIUM =>
    rw [hp] at t1
    simpa [risk_rank] using t1 (by norm_num [risk_rank])
  case HIGH =>
    rw [hp] at t2
    simpa [risk_rank] using t2 (by norm_num [risk_rank])
  case CRITICAL =>
    rw [hp] at t3
    simpa [risk_rank] using t3 (by norm_num [risk_rank])

/-- C9: for every pair of validated snapshots differing only by increasing
one of glucose, systolic, diastolic or age (all other fields fixed), the
computed risk level of the larger snapshot is ≥ that of the smaller one in
the order LOW < MEDIUM < HIGH < CRITICAL. -/
theorem risk_monotone_in_each_field (p q : PatientDataInput)
    (hp : Valid p) (hq : Valid q)
    (hdiff :
      (q = { p with nivel_glicose := q.nivel_glicose } ∧
        p.nivel_glicose ≤ q.nivel_glicose) ∨
      (q = { p with pressao_sistolica := q.pressao_sistolica } ∧
        p.pressao_sistolica ≤ q.pressao_sistolica) ∨
      (q = { p with pressao_diastolica := q.pressao_diastolica } ∧
        p.pressao_diastolica ≤ q.pressao_diastolica) ∨
      (q = { p with idade := q.idade } ∧ p.idade ≤ q.idade)) :
    risk_rank (calculate_risk_level p.toDict) ≤
      risk_rank (calculate_risk_level q.toDict) := by
  apply risk_rank_mono <;>
    simp only [PatientDataInput.toDict, Option.getD_some] <;>
    rcases hdiff with ⟨hq', hle⟩ | ⟨hq', hle⟩ | ⟨hq', hle⟩ | ⟨hq', hle⟩ <;>
    first
      | exact hle
      | (rw [hq'])

/-- Witness for C9: raising only the glucose of the low snapshot
(30, 90, 110, 70, false) to 250 does not decrease the risk rank. -/
theorem risk_monotone_in_each_field_witness :
    risk_rank (calculate_risk_level snapshot_30_90_110_70.toDict) ≤
      risk_rank (calculate_risk_level
        ({ snapshot_30_90_110_70 with nivel_glicose := 250 } : PatientDataInput).toDict) :=
  risk_monotone_in_each_field snapshot_30_90_110_70
    { snapshot_30_90_110_70 with nivel_glicose := 250 }
    (by decide) (by decide) (Or.inl ⟨rfl, by decide⟩)

/-- C10: for the valid snapshot (50, 250, 165, 95, false), which triggers
both the glucose (> 200) and the pressure (systolic > 160) monitoring
blocks, the assembled recommendation contains two distinct lines beginning
with "3." and two distinct lines beginning with "4.", because both blocks
reuse the same hardcoded line numbers. -/
theorem duplicate_line_numbers :
    Valid snapshot_50_250_165_95 ∧
    snapshot_50_250_165_95.nivel_glicose > 200 ∧
    (snapshot_50_250_165_95.pressao_sistolica > 160 ∨
      snapshot_50_250_165_95.pressao_diastolica > 100) ∧
    (∃ l1 l2 : String,
      l1 ∈ generate_local_recommendation_lines snapshot_50_250_165_95.toDict
        (local_classification snapshot_50_250_165_95.toDict) ∧
      l2 ∈ generate_local_recommendation_lines snapshot_50_250_165_95.toDict
        (local_classification snapshot_50_250_165_95.toDict) ∧
      l1 ≠ l2 ∧ (∃ r1, l1 = "3." ++ r1) ∧ (∃ r2, l2 = "3." ++ r2)) ∧
    (∃ l1 l2 : String,
      l1 ∈ generate_local_recommendation_lines snapshot_50_250_165_95.toDict
        (local_classification snapshot_50_250_165_95.toDict) ∧
      l2 ∈ generate_local_recommendation_lines snapshot_50_250_165_95.toDict
        (local_classification snapshot_50_250_165_95.toDict) ∧
      l1 ≠ l2 ∧ (∃ r1, l1 = "4." ++ r1) ∧ (∃ r2, l2 = "4." ++ r2)) := by
  refine ⟨by decide, by decide, Or.inl (by decide), ?_, ?_⟩
  · exact ⟨"3. 🩸 Solicitar: Hemoglobina glicada, glicemia de jejum e pós-prandial",
      "3. 📊 Monitoramento diário da pressão arterial",
      by decide, by decide, by decide,
      ⟨" 🩸 Solicitar: Hemoglobina glicada, glicemia de jejum e pós-prandial", by decide⟩,
      ⟨" 📊 Monitoramento diário da pressão arterial", by decide⟩⟩
  · exact ⟨"4. 👨‍⚕️ Encaminhar para endocrinologista em 7 dias",
      "4. 💊 Revisar medicação anti-hipertensiva",
      by decide, by decide, by decide,
      ⟨" 👨‍⚕️ Encaminhar para endocrinologista em 7 dias", by decide⟩,
      ⟨" 💊 Revisar medicação anti-hipertensiva", by decide⟩⟩

end ConectaSaude
